import Mathlib

/-!
Verification of the gmail-draft-assistant triage pipeline.

This file gives a shallow embedding of the per-message decision pipeline of
`gmail_drafts.py` (functions `list_recent_messages`, `get_message_metadata`,
`check_relevance`, `needs_response`, `generate_reply_body`, `create_draft`,
`archive_message`, `has_existing_draft`, and the message loop and summary of
`main`), together with the template reply of `config_example.py`.

External collaborators (the Gmail API service and the LMStudio classifier
endpoint) are modelled as oracles packaged in a `RunEnv` record: each network
call's result is a field of the environment; a classifier call that raises
a Python exception is modelled as an `Except.error`.  Mailbox mutations
(archive calls and draft-creation calls) are recorded as an explicit effect
trace; classifier calls are pure oracle look-ups and by construction produce
no effect, mirroring that they do not touch mailbox state.
-/

namespace GmailDrafts

/-- Metadata of one message, as returned by `get_message_metadata` on
success: subject, sender, snippet, thread id (`msg.get('threadId')`,
possibly absent). -/
structure MessageMeta where
  subject : String
  sender : String
  snippet : String
  threadId : Option String
  deriving DecidableEq

/-- The run's aggregate counters, initialised at the top of `main`
(lines 251-257) and mutated once per message. -/
structure Summary where
  total_processed : Nat
  drafts_created : Nat
  ai_drafts : Nat
  template_drafts : Nat
  existing_drafts : Nat
  emails_kept : Nat
  emails_archived : Nat
  deriving DecidableEq

/-- All counters start at zero. -/
def initSummary : Summary := ⟨0, 0, 0, 0, 0, 0, 0⟩

/-- A draft message as assembled by `create_draft`: recipient, subject,
body, and the thread the draft is attached to. -/
structure DraftMsg where
  recipient : String
  subject : String
  body : String
  threadId : Option String
  deriving DecidableEq

/-- A mailbox-mutating API call made by the pipeline: either the
`users().messages().modify` call of `archive_message`, or the
`users().drafts().create` call of `create_draft`. -/
inductive Effect where
  | archiveCall (msgId : String)
  | draftCall (draft : DraftMsg)
  deriving DecidableEq

/-- The environment of one run: the parsed flags of `main` plus oracles for
every external call.  `lmClient` is whether `lm_client` is not `None` after
start-up; `relevanceAnswer`/`responseAnswer` give the raw classifier answer
(or the raised exception) for a given user content; `generateAnswer` gives
the raw reply-generation answer for (subject, sender, snippet);
`archiveOk` is whether the archive call for a message id succeeds;
`draftsListOk`/`draftsList` model the `drafts().list` call used by
`has_existing_draft` (each listed draft's `message.threadId`). -/
structure RunEnv where
  lmClient : Bool
  noFilter : Bool
  archiveFlag : Bool
  autoDraft : Bool
  fetchMeta : String → Option MessageMeta
  relevanceAnswer : String → Except String String
  responseAnswer : String → Except String String
  generateAnswer : String → String → String → Except String String
  archiveOk : String → Bool
  draftsListOk : Bool
  draftsList : List (Option String)

/-! ### Configuration constants (`config_example.py`) -/

def USER_NAME : String := "Your Full Name"

def USER_PHONE : String := "Your Phone Number"

def EMAIL_SIGNATURE : String := USER_NAME ++ ", " ++ USER_PHONE

/-- Function `get_template_reply(sender_name, subject)` of `config_example.py`. -/
def get_template_reply (sender_name subject : String) : String :=
  "Hi " ++ sender_name ++ ",\n\n" ++
  "Thanks for your message about '" ++ subject ++ "'. " ++
  "I'll review and get back to you shortly.\n\n" ++
  "Best regards,\n" ++ EMAIL_SIGNATURE

/-! ### Helper functions of `gmail_drafts.py` -/

/-- Function `get_message_metadata` (lines 89-103): on any failure of the
`messages().get` call it returns the sentinel tuple
`('(error)', '(error)', '(error)', None)`. -/
def get_message_metadata (fetch : String → Option MessageMeta) (msgId : String) :
    MessageMeta :=
  match fetch msgId with
  | some md => md
  | none => ⟨"(error)", "(error)", "(error)", none⟩

/-- The number of results `list_recent_messages` (line 84) asks the provider
for: `maxResults=max_results * 10`. -/
def requestedMaxResults (max_results : Nat) : Nat := max_results * 10

/-- Function `list_recent_messages(service, days, max_results)` (lines 80-86): a
single `messages().list` call with `maxResults = max_results * 10`, modelled
by an oracle `provider : days → maxResults → ids`. -/
def list_recent_messages (provider : Nat → Nat → List String)
    (days max_results : Nat) : List String :=
  provider days (requestedMaxResults max_results)

/-- Leading-whitespace removal on a character list (one side of Python's
`str.strip()`). -/
def dropLeadingWs : List Char → List Char
  | [] => []
  | c :: cs => if c.isWhitespace then dropLeadingWs cs else c :: cs

/-- Python's `str.strip()`: remove leading and trailing whitespace. -/
def pyStrip (s : String) : String :=
  ⟨((dropLeadingWs s.data).reverse |> dropLeadingWs).reverse⟩

/-- Python's `str.lower()`: lowercase every character. -/
def pyLower (s : String) : String :=
  ⟨s.data.map Char.toLower⟩

/-- Python's `str.startswith(pre)`. -/
def pyStartsWith (s pre : String) : Bool :=
  pre.data.isPrefixOf s.data

/-- Interpretation of a raw classifier answer, shared by `check_relevance`
and `needs_response` (lines 191-192, 206-207):
`answer.strip().lower().startswith('yes')`. -/
def yesAnswer (answer : String) : Bool :=
  pyStartsWith (pyLower (pyStrip answer)) "yes"

/-- Function `check_relevance(client, snippet, lm_model)` (lines 180-192): a single
chat-completion call whose answer is interpreted by prefix; any transport or
decoding exception propagates (no try/except in the function). -/
def check_relevance (env : RunEnv) (snippet : String) : Except String Bool :=
  (env.relevanceAnswer snippet).map yesAnswer

/-- Function `needs_response(client, snippet, lm_model)` (lines 195-207), same shape
as `check_relevance`. -/
def needs_response (env : RunEnv) (snippet : String) : Except String Bool :=
  (env.responseAnswer snippet).map yesAnswer

/-- Function `generate_reply_body` (lines 106-125): a chat-completion call whose
successful result is stripped (`resp.choices[0].message.content.strip()`);
any exception is re-raised to the caller. -/
def generate_reply_body (env : RunEnv) (subject sender snippet : String) :
    Except String String :=
  (env.generateAnswer subject sender snippet).map pyStrip

/-- Python `sender.split('<')[0].strip()` (lines 108, 302, 307): the display name
of the sender — the part of the sender string before the first `<`,
stripped of surrounding whitespace. -/
def senderName (sender : String) : String :=
  pyStrip ⟨sender.data.takeWhile (fun c => !(c == '<'))⟩

/-- Function `create_draft(service, reply_body, subject, sender, thread_id)`
(lines 142-153): builds the MIME draft with `to = sender`,
`subject = 'Re: ' + subject` and attaches it to `thread_id`. -/
def create_draft (reply_body subject sender : String)
    (thread_id : Option String) : DraftMsg :=
  { recipient := sender, subject := "Re: " ++ subject, body := reply_body,
    threadId := thread_id }

/-- Function `has_existing_draft(service, thread_id)` (lines 168-178): scans all
current drafts for one whose `message.threadId` equals `thread_id`; if the
`drafts().list` call raises, a warning is printed and `False` is returned. -/
def has_existing_draft (env : RunEnv) (thread_id : Option String) : Bool :=
  if env.draftsListOk then
    env.draftsList.any (fun d => d == thread_id)
  else false

/-- Python truthiness of the `thread_id` value in
`if thread_id and has_existing_draft(...)` (line 290): `None` and the empty
string are falsy. -/
def truthyOpt : Option String → Bool
  | none => false
  | some s => !(s == "")

/-- Python `snippet or subject` (lines 271, 286): the snippet, falling back to the
subject when the snippet is the empty string. -/
def contentFor (snippet subject : String) : String :=
  if snippet = "" then subject else snippet

/-- Lines 269-271 of `main`: `is_relevant = True`, overwritten by
`check_relevance(lm_client, snippet or subject, ...)` only when a classifier
client exists and `--no-filter` is not set. -/
def is_relevant_of (env : RunEnv) (subject snippet : String) :
    Except String Bool :=
  if env.lmClient && !env.noFilter then
    check_relevance env (contentFor snippet subject)
  else Except.ok true

/-- Lines 284-286 of `main`: `needs_reply = False`, overwritten by
`needs_response(lm_client, snippet or subject, ...)` only when a classifier
client exists and `--auto-draft` is set. -/
def needs_reply_of (env : RunEnv) (subject snippet : String) :
    Except String Bool :=
  if env.lmClient && env.autoDraft then
    needs_response env (contentFor snippet subject)
  else Except.ok false

/-- One iteration of the message loop of `main` (lines 259-318) for message
id `m`, starting from counters `s`.  Returns the updated counters and the
mailbox-mutating calls made during the iteration, or `Except.error` when an
uncaught exception (a raising classifier call) escapes the iteration. -/
def processOne (env : RunEnv) (m : String) (s : Summary) :
    Except String (Summary × List Effect) :=
  let s1 := { s with total_processed := s.total_processed + 1 }
  let md := get_message_metadata env.fetchMeta m
  if md.subject = "(error)" then
    Except.ok (s1, [])
  else
    match is_relevant_of env md.subject md.snippet with
    | Except.error e => Except.error e
    | Except.ok isRel =>
      if !isRel then
        if env.archiveFlag then
          if env.archiveOk m then
            Except.ok ({ s1 with emails_archived := s1.emails_archived + 1 },
              [Effect.archiveCall m])
          else
            Except.ok (s1, [Effect.archiveCall m])
        else
          Except.ok (s1, [])
      else
        match needs_reply_of env md.subject md.snippet with
        | Except.error e => Except.error e
        | Except.ok needsReply =>
          if needsReply then
            if truthyOpt md.threadId && has_existing_draft env md.threadId then
              Except.ok ({ s1 with existing_drafts := s1.existing_drafts + 1 },
                [])
            else
              if env.lmClient then
                match generate_reply_body env md.subject md.sender md.snippet with
                | Except.ok body =>
                  Except.ok ({ s1 with
                      ai_drafts := s1.ai_drafts + 1,
                      drafts_created := s1.drafts_created + 1 },
                    [Effect.draftCall
                      (create_draft body md.subject md.sender md.threadId)])
                | Except.error _ =>
                  Except.ok ({ s1 with
                      template_drafts := s1.template_drafts + 1,
                      drafts_created := s1.drafts_created + 1 },
                    [Effect.draftCall
                      (create_draft
                        (get_template_reply (senderName md.sender) md.subject)
                        md.subject md.sender md.threadId)])
              else
                Except.ok ({ s1 with
                    template_drafts := s1.template_drafts + 1,
                    drafts_created := s1.drafts_created + 1 },
                  [Effect.draftCall
                    (create_draft
                      (get_template_reply (senderName md.sender) md.subject)
                      md.subject md.sender md.threadId)])
          else
            Except.ok ({ s1 with emails_kept := s1.emails_kept + 1 }, [])

/-- The message loop of `main` over a fetched id list: sequential, one
message at a time; an uncaught exception in an iteration aborts the whole
loop (and hence the run). -/
def runLoop (env : RunEnv) : List String → Summary →
    Except String (Summary × List Effect)
  | [], s => Except.ok (s, [])
  | m :: ms, s =>
    match processOne env m s with
    | Except.error e => Except.error e
    | Except.ok (s1, effs) =>
      match runLoop env ms s1 with
      | Except.error e => Except.error e
      | Except.ok (s2, effs') => Except.ok (s2, effs ++ effs')

/-- Function `main` after start-up: fetch the id list and run the loop from zeroed
counters.  (When the list is empty the Python code prints a notice and
returns; the counters are then all zero, as here.) -/
def runMain (env : RunEnv) (provider : Nat → Nat → List String)
    (days max_results : Nat) : Except String (Summary × List Effect) :=
  runLoop env (list_recent_messages provider days max_results) initSummary

/-- The end-of-run console summary (lines 321-331), as the list of printed
lines (the leading blank of `"\n=== Summary ==="` omitted). -/
def summaryLines (archiveFlag : Bool) (s : Summary) : List String :=
  ["=== Summary ===",
   "Total processed: " ++ toString s.total_processed,
   "Drafts created: " ++ toString s.drafts_created]
  ++ (if s.drafts_created > 0 then
        ["  - AI drafts: " ++ toString s.ai_drafts,
         "  - Template drafts: " ++ toString s.template_drafts]
      else [])
  ++ (if s.existing_drafts > 0 then
        ["Existing drafts found: " ++ toString s.existing_drafts]
      else [])
  ++ ["Emails kept: " ++ toString s.emails_kept]
  ++ (if archiveFlag then
        ["Emails archived: " ++ toString s.emails_archived]
      else [])

/-! ### Per-message outcome categories

`categoryOf` mirrors the branch structure of `processOne` on its success
paths and names the outcome of one loop iteration.  The two classifier-error
branches are mapped to `metaErr` arbitrarily: they are unreachable whenever
`processOne` returns `Except.ok`, which is the only situation the lemmas
below use `categoryOf` in. -/

/-- The seven ways one message loop iteration can end (on a non-raising
iteration). -/
inductive Category where
  | metaErr
  | archived
  | irrDropped
  | keptMsg
  | existingSkip
  | aiDrafted
  | tmplDrafted
  deriving DecidableEq

/-- The outcome category of processing message `m` in environment `env`. -/
def categoryOf (env : RunEnv) (m : String) : Category :=
  let md := get_message_metadata env.fetchMeta m
  if md.subject = "(error)" then Category.metaErr
  else
    match is_relevant_of env md.subject md.snippet with
    | Except.error _ => Category.metaErr
    | Except.ok isRel =>
      if !isRel then
        if env.archiveFlag then
          if env.archiveOk m then Category.archived else Category.irrDropped
        else Category.irrDropped
      else
        match needs_reply_of env md.subject md.snippet with
        | Except.error _ => Category.metaErr
        | Except.ok needsReply =>
          if needsReply then
            if truthyOpt md.threadId && has_existing_draft env md.threadId then
              Category.existingSkip
            else
              if env.lmClient then
                match generate_reply_body env md.subject md.sender md.snippet with
                | Except.ok _ => Category.aiDrafted
                | Except.error _ => Category.tmplDrafted
              else Category.tmplDrafted
          else Category.keptMsg

/-- How each outcome category updates the run counters. -/
def bumpCategory (s : Summary) : Category → Summary
  | Category.metaErr =>
    { s with total_processed := s.total_processed + 1 }
  | Category.archived =>
    { s with
      total_processed := s.total_processed + 1,
      emails_archived := s.emails_archived + 1 }
  | Category.irrDropped =>
    { s with total_processed := s.total_processed + 1 }
  | Category.keptMsg =>
    { s with
      total_processed := s.total_processed + 1,
      emails_kept := s.emails_kept + 1 }
  | Category.existingSkip =>
    { s with
      total_processed := s.total_processed + 1,
      existing_drafts := s.existing_drafts + 1 }
  | Category.aiDrafted =>
    { s with
      total_processed := s.total_processed + 1,
      ai_drafts := s.ai_drafts + 1,
      drafts_created := s.drafts_created + 1 }
  | Category.tmplDrafted =>
    { s with
      total_processed := s.total_processed + 1,
      template_drafts := s.template_drafts + 1,
      drafts_created := s.drafts_created + 1 }

/-- How many messages of `msgs` fall into category `c`. -/
def countCat (env : RunEnv) (c : Category) : List String → Nat
  | [] => 0
  | m :: ms => (if categoryOf env m = c then 1 else 0) + countCat env c ms

/-- The console summary as §6 of the spec words it: a fixed field order —
total processed, drafts created (with the AI vs. template split shown only
if drafts > 0), existing drafts skipped (shown only if > 0), emails kept,
emails archived (shown only if archiving was requested).  Each field
contributes its lines when its show-condition holds. -/
def specSummaryLines (archiveWasRequested : Bool) (s : Summary) :
    List String :=
  "=== Summary ===" ::
    ([((true : Bool), ["Total processed: " ++ toString s.total_processed]),
      ((true : Bool), ["Drafts created: " ++ toString s.drafts_created]),
      (decide (0 < s.drafts_created),
        ["  - AI drafts: " ++ toString s.ai_drafts,
         "  - Template drafts: " ++ toString s.template_drafts]),
      (decide (0 < s.existing_drafts),
        ["Existing drafts found: " ++ toString s.existing_drafts]),
      ((true : Bool), ["Emails kept: " ++ toString s.emails_kept]),
      (archiveWasRequested,
        ["Emails archived: " ++ toString s.emails_archived])]
    |>.foldr (fun p acc => if p.1 then p.2 ++ acc else acc) [])

/-! ### Concrete inputs used by witnesses and counterexamples -/

/-- A well-formed message metadata record. -/
def mdW : MessageMeta :=
  ⟨"Hello", "Alice <alice@example.com>", "Please reply", some "t1"⟩

/-- Classifier present, filtering on, auto-draft on; both classifier
questions answer `"Yes"`; reply generation raises; no existing drafts. -/
def envYes : RunEnv :=
  { lmClient := true, noFilter := false, archiveFlag := false,
    autoDraft := true,
    fetchMeta := fun _ => some mdW,
    relevanceAnswer := fun _ => Except.ok "Yes",
    responseAnswer := fun _ => Except.ok "Yes",
    generateAnswer := fun _ _ _ => Except.error "timeout",
    archiveOk := fun _ => true,
    draftsListOk := true,
    draftsList := [] }

/-- Like `envYes` but one existing draft sits on thread `t1`. -/
def envExisting : RunEnv :=
  { envYes with draftsList := [some "t1"] }

/-- Classifier present, filtering on; the relevance call raises for the
first message's snippet and answers `"yes"` for the second's. -/
def envBoom : RunEnv :=
  { lmClient := true, noFilter := false, archiveFlag := false,
    autoDraft := false,
    fetchMeta := fun m =>
      if m = "m1" then some ⟨"A", "a@x", "s1", some "t"⟩
      else some ⟨"B", "b@x", "s2", some "t"⟩,
    relevanceAnswer := fun c =>
      if c = "s1" then Except.error "boom" else Except.ok "yes",
    responseAnswer := fun _ => Except.ok "no",
    generateAnswer := fun _ _ _ => Except.ok "body",
    archiveOk := fun _ => true,
    draftsListOk := true,
    draftsList := [] }

/-- Classifier present, filtering on, archive flag unset; every message is
classified not relevant. -/
def envC3 : RunEnv :=
  { envYes with relevanceAnswer := fun _ => Except.ok "no" }

/-- The summary produced by running `envC3` on one message: processed but
neither kept, archived, drafted, skipped-as-existing, nor a metadata
error. -/
def sC3ex : Summary := { initSummary with total_processed := 1 }

/-- No classifier client: every message is kept. -/
def envNoLm : RunEnv :=
  { envYes with lmClient := false }

/-- A provider returning two message ids whenever at least two are
requested — within its contract, since `maxResults` is only an upper
bound. -/
def pC9 (_days k : Nat) : List String :=
  if k = 0 then [] else if k = 1 then ["a"] else ["a", "b"]

/-- The summary of running `envNoLm` over the two ids fetched by `pC9`
with `--max 1`. -/
def sC9ex : Summary :=
  { initSummary with total_processed := 2, emails_kept := 2 }

/-- An environment whose metadata fetch fails for every message. -/
def envFetchFail : RunEnv :=
  { envYes with fetchMeta := fun _ => none }

/-- A genuine metadata record whose actual subject is the sentinel string
`(error)`. -/
def mdGE : MessageMeta := ⟨"(error)", "bob@x", "hi", some "t9"⟩

/-- An environment where the fetch succeeds but the genuine subject is the
sentinel string `(error)`. -/
def envGenuineError : RunEnv :=
  { envYes with fetchMeta := fun _ => some mdGE }

/-- The template-bodied draft produced for `mdW` when generation fails. -/
def dW : DraftMsg :=
  create_draft (get_template_reply (senderName mdW.sender) mdW.subject)
    mdW.subject mdW.sender mdW.threadId

/-- The summary after one template-draft iteration from zero counters. -/
def sW : Summary :=
  { initSummary with
    total_processed := 1,
    drafts_created := 1,
    template_drafts := 1 }

end GmailDrafts

namespace GmailDrafts

theorem processOne_ok_summary (env : RunEnv) (m : String) (s s' : Summary)
    (effs : List Effect) (h : processOne env m s = Except.ok (s', effs)) :
    s' = bumpCategory s (categoryOf env m) := by
  simp only [processOne] at h
  simp only [categoryOf]
  repeat' split at h
  all_goals repeat' split
  all_goals simp_all [bumpCategory]

theorem bump_total (s : Summary) (c : Category) :
    (bumpCategory s c).total_processed = s.total_processed + 1 := by
  cases c <;> rfl

theorem bump_kept (s : Summary) (c : Category) :
    (bumpCategory s c).emails_kept =
      s.emails_kept + (if c = Category.keptMsg then 1 else 0) := by
  cases c <;> simp [bumpCategory]

theorem bump_archived (s : Summary) (c : Category) :
    (bumpCategory s c).emails_archived =
      s.emails_archived + (if c = Category.archived then 1 else 0) := by
  cases c <;> simp [bumpCategory]

theorem bump_existing (s : Summary) (c : Category) :
    (bumpCategory s c).existing_drafts =
      s.existing_drafts + (if c = Category.existingSkip then 1 else 0) := by
  cases c <;> simp [bumpCategory]

theorem bump_drafts (s : Summary) (c : Category) :
    (bumpCategory s c).drafts_created =
      s.drafts_created + (if c = Category.aiDrafted then 1 else 0)
        + (if c = Category.tmplDrafted then 1 else 0) := by
  cases c <;> simp [bumpCategory]

theorem bump_ai (s : Summary) (c : Category) :
    (bumpCategory s c).ai_drafts =
      s.ai_drafts + (if c = Category.aiDrafted then 1 else 0) := by
  cases c <;> simp [bumpCategory]

theorem bump_tmpl (s : Summary) (c : Category) :
    (bumpCategory s c).template_drafts =
      s.template_drafts + (if c = Category.tmplDrafted then 1 else 0) := by
  cases c <;> simp [bumpCategory]

theorem runLoop_ok_summary (env : RunEnv) :
    ∀ (msgs : List String) (s s' : Summary) (effs : List Effect),
      runLoop env msgs s = Except.ok (s', effs) →
      s' = msgs.foldl (fun acc m => bumpCategory acc (categoryOf env m)) s := by
  intro msgs
  induction msgs with
  | nil =>
    intro s s' effs h
    simp only [runLoop, Except.ok.injEq, Prod.mk.injEq] at h
    simp [← h.1]
  | cons m ms ih =>
    intro s s' effs h
    simp only [runLoop] at h
    rcases h1 : processOne env m s with e | p
    · rw [h1] at h; exact absurd h (by simp)
    · rcases p with ⟨s1, effs1⟩
      rw [h1] at h
      dsimp only at h
      rcases h2 : runLoop env ms s1 with e | q
      · rw [h2] at h; exact absurd h (by simp)
      · rcases q with ⟨s2, effs2⟩
        rw [h2] at h
        dsimp only at h
        simp only [Except.ok.injEq, Prod.mk.injEq] at h
        have hb := processOne_ok_summary env m s s1 effs1 h1
        have hfold := ih s1 s2 effs2 h2
        simp only [List.foldl_cons, ← hb, ← h.1, hfold]

theorem foldl_bump_counters (env : RunEnv) (msgs : List String) :
    ∀ s : Summary,
      ((msgs.foldl (fun acc m => bumpCategory acc (categoryOf env m)) s).total_processed
          = s.total_processed + msgs.length) ∧
      ((msgs.foldl (fun acc m => bumpCategory acc (categoryOf env m)) s).emails_kept
          = s.emails_kept + countCat env Category.keptMsg msgs) ∧
      ((msgs.foldl (fun acc m => bumpCategory acc (categoryOf env m)) s).emails_archived
          = s.emails_archived + countCat env Category.archived msgs) ∧
      ((msgs.foldl (fun acc m => bumpCategory acc (categoryOf env m)) s).existing_drafts
          = s.existing_drafts + countCat env Category.existingSkip msgs) ∧
      ((msgs.foldl (fun acc m => bumpCategory acc (categoryOf env m)) s).drafts_created
          = s.drafts_created + countCat env Category.aiDrafted msgs
            + countCat env Category.tmplDrafted msgs) ∧
      ((msgs.foldl (fun acc m => bumpCategory acc (categoryOf env m)) s).ai_drafts
          = s.ai_drafts + countCat env Category.aiDrafted msgs) ∧
      ((msgs.foldl (fun acc m => bumpCategory acc (categoryOf env m)) s).template_drafts
          = s.template_drafts + countCat env Category.tmplDrafted msgs) := by
  induction msgs with
  | nil => intro s; simp [countCat]
  | cons m ms ih =>
    intro s
    obtain ⟨i1, i2, i3, i4, i5, i6, i7⟩ := ih (bumpCategory s (categoryOf env m))
    simp only [List.foldl_cons, List.length_cons, countCat]
    refine ⟨?_, ?_, ?_, ?_, ?_, ?_, ?_⟩
    · rw [i1, bump_total]; omega
    · rw [i2, bump_kept]; omega
    · rw [i3, bump_archived]; omega
    · rw [i4, bump_existing]; omega
    · rw [i5, bump_drafts]; omega
    · rw [i6, bump_ai]; omega
    · rw [i7, bump_tmpl]; omega

theorem length_eq_sum_counts (env : RunEnv) (msgs : List String) :
    msgs.length =
      countCat env Category.metaErr msgs + countCat env Category.archived msgs +
      countCat env Category.irrDropped msgs + countCat env Category.keptMsg msgs +
      countCat env Category.existingSkip msgs + countCat env Category.aiDrafted msgs +
      countCat env Category.tmplDrafted msgs := by
  induction msgs with
  | nil => simp [countCat]
  | cons m ms ih =>
    rcases hc : categoryOf env m <;> simp [countCat, hc, ih] <;> omega


/-- C1: with no classifier client or filtering disabled, every message is
relevant; with a classifier and filtering enabled, the message is relevant
iff the answer, stripped and lowercased, starts with "yes", and the
classifier is invoked with the snippet, falling back to the subject when
the snippet is empty. -/
theorem claim_C1_relevance_policy (env : RunEnv) (subject snippet : String) :
    (env.lmClient = false ∨ env.noFilter = true →
      is_relevant_of env subject snippet = Except.ok true) ∧
    (env.lmClient = true → env.noFilter = false →
      ∀ ans, env.relevanceAnswer (contentFor snippet subject) = Except.ok ans →
        is_relevant_of env subject snippet =
          Except.ok (pyStartsWith (pyLower (pyStrip ans)) "yes")) ∧
    (snippet = "" → contentFor snippet subject = subject) ∧
    (snippet ≠ "" → contentFor snippet subject = snippet) := by
  refine ⟨?_, ?_, ?_, ?_⟩
  · rintro (h | h) <;> simp [is_relevant_of, h]
  · intro h1 h2 ans hans
    simp [is_relevant_of, h1, h2, check_relevance, hans, yesAnswer, Except.map]
  · intro h; simp [contentFor, h]
  · intro h; simp [contentFor, h]

/-- C5: a message that is relevant, needs a response, and whose thread
already carries a draft is skipped: no draft effect, the existing-draft
counter goes up by one, all other counters (drafts created included) are
unchanged. -/
theorem claim_C5_existing_draft_skip (env : RunEnv) (m : String) (s : Summary)
    (md : MessageMeta) (hmd : get_message_metadata env.fetchMeta m = md)
    (hsubj : md.subject ≠ "(error)")
    (hrel : is_relevant_of env md.subject md.snippet = Except.ok true)
    (hneeds : needs_reply_of env md.subject md.snippet = Except.ok true)
    (htid : truthyOpt md.threadId = true)
    (hex : has_existing_draft env md.threadId = true) :
    processOne env m s =
      Except.ok ({ s with
        total_processed := s.total_processed + 1,
        existing_drafts := s.existing_drafts + 1 }, []) := by
  simp [processOne, hmd, hsubj, hrel, hneeds, htid, hex]

/-- C4: when the reply-generation call fails for a relevant,
needs-response message with no existing draft, exactly one draft is
created, its body is the deterministic template built from the sender
display name and the subject, it is counted as a template draft, and the
iteration still succeeds. -/
theorem claim_C4_template_fallback (env : RunEnv) (m : String) (s : Summary)
    (md : MessageMeta) (e : String)
    (hmd : get_message_metadata env.fetchMeta m = md)
    (hsubj : md.subject ≠ "(error)")
    (hrel : is_relevant_of env md.subject md.snippet = Except.ok true)
    (hneeds : needs_reply_of env md.subject md.snippet = Except.ok true)
    (hex : truthyOpt md.threadId = false ∨
      has_existing_draft env md.threadId = false)
    (hlm : env.lmClient = true)
    (hgen : generate_reply_body env md.subject md.sender md.snippet =
      Except.error e) :
    processOne env m s =
      Except.ok ({ s with
        total_processed := s.total_processed + 1,
        drafts_created := s.drafts_created + 1,
        template_drafts := s.template_drafts + 1 },
        [Effect.draftCall (create_draft
          (get_template_reply (senderName md.sender) md.subject)
          md.subject md.sender md.threadId)]) := by
  rcases hex with h | h <;>
    simp [processOne, hmd, hsubj, hrel, hneeds, hlm, hgen, h]

/-- C6: every draft effect produced by an iteration is threaded to the
message thread id, carries subject "Re: " ++ original subject, and is
addressed to the original sender. -/
theorem claim_C6_draft_fields (env : RunEnv) (m : String) (s s' : Summary)
    (effs : List Effect) (d : DraftMsg)
    (h : processOne env m s = Except.ok (s', effs))
    (hd : Effect.draftCall d ∈ effs) :
    d.subject = "Re: " ++ (get_message_metadata env.fetchMeta m).subject ∧
    d.recipient = (get_message_metadata env.fetchMeta m).sender ∧
    d.threadId = (get_message_metadata env.fetchMeta m).threadId := by
  simp only [processOne] at h
  repeat' split at h
  all_goals (try simp at h)
  all_goals obtain ⟨h1, h2⟩ := h
  all_goals subst h2
  all_goals simp at hd
  all_goals simp [hd, create_draft]

/-- C7: one iteration makes at most one mailbox-mutating call; an archive
call only for a not-relevant message under the archive flag, a draft call
only for a relevant, needs-response message without an existing draft;
classifier calls are pure oracle look-ups and never appear in the effect
trace. -/
theorem claim_C7_single_mutation (env : RunEnv) (m : String) (s s' : Summary)
    (effs : List Effect)
    (h : processOne env m s = Except.ok (s', effs)) :
    effs.length ≤ 1 ∧
    (∀ mid, Effect.archiveCall mid ∈ effs →
      mid = m ∧ env.archiveFlag = true ∧
      is_relevant_of env (get_message_metadata env.fetchMeta m).subject
        (get_message_metadata env.fetchMeta m).snippet = Except.ok false) ∧
    (∀ d, Effect.draftCall d ∈ effs →
      is_relevant_of env (get_message_metadata env.fetchMeta m).subject
        (get_message_metadata env.fetchMeta m).snippet = Except.ok true ∧
      needs_reply_of env (get_message_metadata env.fetchMeta m).subject
        (get_message_metadata env.fetchMeta m).snippet = Except.ok true ∧
      (truthyOpt (get_message_metadata env.fetchMeta m).threadId = true →
        has_existing_draft env
          (get_message_metadata env.fetchMeta m).threadId = false)) := by
  simp only [processOne] at h
  repeat' split at h
  all_goals (try simp at h)
  all_goals obtain ⟨h1, h2⟩ := h
  all_goals subst h2
  all_goals refine ⟨by simp, ?_, ?_⟩
  all_goals intro x hx
  all_goals simp_all

/-- C10: a failed metadata fetch yields the sentinel tuple; any message
whose metadata subject equals "(error)" — including a genuine message
whose actual subject is "(error)" — is skipped while still incrementing
the processed counter. -/
theorem claim_C10_metadata_sentinel (env : RunEnv)
    (fetch : String → Option MessageMeta) (m : String) (s : Summary)
    (md : MessageMeta) :
    (fetch m = none →
      get_message_metadata fetch m = ⟨"(error)", "(error)", "(error)", none⟩) ∧
    ((get_message_metadata env.fetchMeta m).subject = "(error)" →
      processOne env m s =
        Except.ok ({ s with total_processed := s.total_processed + 1 }, [])) ∧
    (env.fetchMeta m = some md → md.subject = "(error)" →
      processOne env m s =
        Except.ok ({ s with total_processed := s.total_processed + 1 }, [])) := by
  refine ⟨?_, ?_, ?_⟩
  · intro h; simp [get_message_metadata, h]
  · intro h; simp [processOne, h]
  · intro h1 h2; simp [processOne, get_message_metadata, h1, h2]


/-- C2 counterexample: with a classifier whose relevance call raises on the
first message, the whole run returns the error — it does not continue with
the second message, although that message on its own would process fine. -/
theorem claim_C2_counterexample :
    runLoop envBoom ["m1", "m2"] initSummary = Except.error "boom" ∧
    processOne envBoom "m2" initSummary =
      Except.ok ({ initSummary with
        total_processed := 1, emails_kept := 1 }, []) :=
  ⟨rfl, rfl⟩

/-- C2 (amended): a raising relevance or response-need classification call
aborts the message's loop iteration and terminates the entire run with the
error; subsequent messages are not processed. -/
theorem claim_C2_uncaught_classifier_error (env : RunEnv) (m : String)
    (ms : List String) (s : Summary) (e : String)
    (hsubj : (get_message_metadata env.fetchMeta m).subject ≠ "(error)")
    (herr :
      is_relevant_of env (get_message_metadata env.fetchMeta m).subject
          (get_message_metadata env.fetchMeta m).snippet = Except.error e ∨
        (is_relevant_of env (get_message_metadata env.fetchMeta m).subject
            (get_message_metadata env.fetchMeta m).snippet = Except.ok true ∧
          needs_reply_of env (get_message_metadata env.fetchMeta m).subject
            (get_message_metadata env.fetchMeta m).snippet = Except.error e)) :
    processOne env m s = Except.error e ∧
    runLoop env (m :: ms) s = Except.error e := by
  have hp : processOne env m s = Except.error e := by
    rcases herr with h | ⟨h1, h2⟩
    · simp [processOne, hsubj, h]
    · simp [processOne, hsubj, h1, h2]
  exact ⟨hp, by simp [runLoop, hp]⟩

theorem claim_C2_uncaught_classifier_error_witness :
    processOne envBoom "m1" initSummary = Except.error "boom" ∧
    runLoop envBoom ["m1", "m2"] initSummary = Except.error "boom" :=
  claim_C2_uncaught_classifier_error envBoom "m1" ["m2"] initSummary "boom"
    (by decide) (Or.inl rfl)

/-- C3 counterexample: one not-relevant message with the archive flag unset
is processed but counted nowhere, so the claimed sum equation fails. -/
theorem claim_C3_counterexample :
    runLoop envC3 ["m1"] initSummary = Except.ok (sC3ex, []) ∧
    sC3ex.total_processed ≠
      sC3ex.emails_kept + sC3ex.emails_archived + sC3ex.drafts_created +
        sC3ex.existing_drafts + countCat envC3 Category.metaErr ["m1"] :=
  ⟨rfl, by decide⟩

/-- C3 (amended): on a completed run the counters sum once the messages
classified not relevant but not successfully archived are added: processed
equals kept + archived + drafts created + existing-draft skips +
metadata-error skips + not-relevant-not-archived messages. -/
theorem claim_C3_counter_sum (env : RunEnv) (msgs : List String) (s : Summary)
    (effs : List Effect)
    (h : runLoop env msgs initSummary = Except.ok (s, effs)) :
    s.total_processed =
      s.emails_kept + s.emails_archived + s.drafts_created + s.existing_drafts +
        countCat env Category.metaErr msgs +
        countCat env Category.irrDropped msgs := by
  have hs := runLoop_ok_summary env msgs initSummary s effs h
  obtain ⟨i1, i2, i3, i4, i5, i6, i7⟩ := foldl_bump_counters env msgs initSummary
  have hlen := length_eq_sum_counts env msgs
  subst hs
  have z1 : initSummary.total_processed = 0 := rfl
  have z2 : initSummary.emails_kept = 0 := rfl
  have z3 : initSummary.emails_archived = 0 := rfl
  have z4 : initSummary.existing_drafts = 0 := rfl
  have z5 : initSummary.drafts_created = 0 := rfl
  rw [z1] at i1
  rw [z2] at i2
  rw [z3] at i3
  rw [z4] at i4
  rw [z5] at i5
  omega

theorem claim_C3_counter_sum_witness :
    sC3ex.total_processed =
      sC3ex.emails_kept + sC3ex.emails_archived + sC3ex.drafts_created +
        sC3ex.existing_drafts + countCat envC3 Category.metaErr ["m1"] +
        countCat envC3 Category.irrDropped ["m1"] :=
  claim_C3_counter_sum envC3 ["m1"] sC3ex [] rfl

/-- C8: the console summary reports the counters in the fixed order the
spec states — total processed, drafts created (AI/template split only when
drafts were created), existing drafts (only when positive), emails kept,
emails archived (only when the archive flag was set). -/
theorem claim_C8_summary_order (af : Bool) (s : Summary) :
    summaryLines af s = specSummaryLines af s := by
  unfold summaryLines specSummaryLines
  rcases Nat.eq_zero_or_pos s.drafts_created with h1 | h1 <;>
    rcases Nat.eq_zero_or_pos s.existing_drafts with h2 | h2 <;>
      cases af <;>
        simp [h1, h2, Nat.pos_iff_ne_zero]

/-- C9 counterexample: with `--max 1` the fetch call requests ten ids, a
provider within its contract returns two, and the run processes both —
more than the configured maximum. -/
theorem claim_C9_counterexample :
    (pC9 1 (requestedMaxResults 1)).length ≤ requestedMaxResults 1 ∧
    list_recent_messages pC9 1 1 = ["a", "b"] ∧
    runMain envNoLm pC9 1 1 = Except.ok (sC9ex, []) ∧
    ¬(requestedMaxResults 1 ≤ 1) ∧
    ¬(sC9ex.total_processed ≤ 1) :=
  ⟨by decide, rfl, rfl, by decide, by decide⟩

/-- C9 (amended): the fetch stage requests `10 * N` identifiers and, for a
provider that returns at most the requested number, a completed run
processes at most `10 * N` messages. -/
theorem claim_C9_fetch_bound (env : RunEnv) (provider : Nat → Nat → List String)
    (days max_results : Nat) (s : Summary) (effs : List Effect)
    (hprov : (provider days (requestedMaxResults max_results)).length ≤
      requestedMaxResults max_results)
    (h : runMain env provider days max_results = Except.ok (s, effs)) :
    s.total_processed ≤ 10 * max_results := by
  have hs := runLoop_ok_summary env
    (list_recent_messages provider days max_results) initSummary s effs h
  have i1 := (foldl_bump_counters env
    (list_recent_messages provider days max_results) initSummary).1
  subst hs
  simp only [initSummary, list_recent_messages, requestedMaxResults] at i1 hprov ⊢
  omega

theorem claim_C9_fetch_bound_witness : sC9ex.total_processed ≤ 10 * 1 :=
  claim_C9_fetch_bound envNoLm pC9 1 1 sC9ex [] (by decide) rfl

theorem claim_C1_relevance_policy_witness :
    is_relevant_of envNoLm "Hello" "snip" = Except.ok true ∧
    is_relevant_of envYes "Hello" "" =
      Except.ok (pyStartsWith (pyLower (pyStrip "Yes")) "yes") ∧
    contentFor "" "Hello" = "Hello" ∧
    contentFor "snip" "Hello" = "snip" :=
  ⟨(claim_C1_relevance_policy envNoLm "Hello" "snip").1 (Or.inl rfl),
   (claim_C1_relevance_policy envYes "Hello" "").2.1 rfl rfl "Yes" rfl,
   (claim_C1_relevance_policy envYes "Hello" "").2.2.1 rfl,
   (claim_C1_relevance_policy envYes "Hello" "snip").2.2.2 (by decide)⟩

theorem claim_C4_template_fallback_witness :
    processOne envYes "m1" initSummary =
      Except.ok ({ initSummary with
        total_processed := 1, drafts_created := 1, template_drafts := 1 },
        [Effect.draftCall (create_draft
          (get_template_reply (senderName mdW.sender) mdW.subject)
          mdW.subject mdW.sender mdW.threadId)]) :=
  claim_C4_template_fallback envYes "m1" initSummary mdW "timeout" rfl
    (by decide) rfl rfl (Or.inr rfl) rfl rfl

theorem claim_C5_existing_draft_skip_witness :
    processOne envExisting "m1" initSummary =
      Except.ok ({ initSummary with
        total_processed := 1, existing_drafts := 1 }, []) :=
  claim_C5_existing_draft_skip envExisting "m1" initSummary mdW rfl
    (by decide) rfl rfl rfl rfl

theorem claim_C6_draft_fields_witness :
    dW.subject = "Re: " ++ (get_message_metadata envYes.fetchMeta "m1").subject ∧
    dW.recipient = (get_message_metadata envYes.fetchMeta "m1").sender ∧
    dW.threadId = (get_message_metadata envYes.fetchMeta "m1").threadId :=
  claim_C6_draft_fields envYes "m1" initSummary sW [Effect.draftCall dW] dW
    (by rfl) (by simp)

theorem claim_C7_single_mutation_witness :
    ([Effect.draftCall dW] : List Effect).length ≤ 1 ∧
    (∀ mid, Effect.archiveCall mid ∈ [Effect.draftCall dW] →
      mid = "m1" ∧ envYes.archiveFlag = true ∧
      is_relevant_of envYes (get_message_metadata envYes.fetchMeta "m1").subject
        (get_message_metadata envYes.fetchMeta "m1").snippet = Except.ok false) ∧
    (∀ d, Effect.draftCall d ∈ [Effect.draftCall dW] →
      is_relevant_of envYes (get_message_metadata envYes.fetchMeta "m1").subject
        (get_message_metadata envYes.fetchMeta "m1").snippet = Except.ok true ∧
      needs_reply_of envYes (get_message_metadata envYes.fetchMeta "m1").subject
        (get_message_metadata envYes.fetchMeta "m1").snippet = Except.ok true ∧
      (truthyOpt (get_message_metadata envYes.fetchMeta "m1").threadId = true →
        has_existing_draft envYes
          (get_message_metadata envYes.fetchMeta "m1").threadId = false)) :=
  claim_C7_single_mutation envYes "m1" initSummary sW [Effect.draftCall dW]
    (by rfl)

theorem claim_C10_metadata_sentinel_witness :
    get_message_metadata (fun _ => none) "m1" =
      ⟨"(error)", "(error)", "(error)", none⟩ ∧
    processOne envFetchFail "m1" initSummary =
      Except.ok ({ initSummary with total_processed := 1 }, []) ∧
    processOne envGenuineError "m1" initSummary =
      Except.ok ({ initSummary with total_processed := 1 }, []) :=
  ⟨(claim_C10_metadata_sentinel envFetchFail (fun _ => none) "m1" initSummary
      mdGE).1 rfl,
   (claim_C10_metadata_sentinel envFetchFail (fun _ => none) "m1" initSummary
      mdGE).2.1 rfl,
   (claim_C10_metadata_sentinel envGenuineError (fun _ => none) "m1" initSummary
      mdGE).2.2 rfl rfl⟩

end GmailDrafts
